import Mathlib

/-!
# Verification of `wl-mpris-idle-inhibit` (`src/main.rs`)

A shallow embedding of the program in `src/main.rs`: a Wayland idle-inhibit
client that polls the MPRIS D-Bus interface for a playing media player,
creates an idle inhibitor while one is playing, and destroys it when playback
stops.

The embedding models:
* the MPRIS side (`PlaybackStatus`, `Event`, the error types of the `mpris`
  crate) as inductive types, with each player carrying the result its
  per-cycle `get_playback_status` query returns;
* `find_active_player` (main.rs lines 114-133) as a function of the result of
  `player_finder.find_all()`;
* the event-watch loop (main.rs lines 69-98) as a function of the finite
  list of items the event iterator yields;
* the Wayland registry dispatch (main.rs lines 142-179) as a fold over the
  advertised globals, producing the `State` struct;
* one iteration of the coordination loop (main.rs lines 42-107) as a function
  from the loop state and the cycle's external inputs to the list of observable
  actions the iteration performs plus either the next state or a fatal error
  (Rust panics via `.expect` are modelled as `Except.error` with the `expect`
  message).

Side effects that no claim concerns are not modelled: `println!`/`eprintln!`
output, and compositor-side rejection of create/destroy/roundtrip requests
(which would panic via `expect`; the compositor is assumed to accept requests).
-/

/-- `mpris::PlaybackStatus`. -/
inductive PlaybackStatus
  | Playing
  | Paused
  | Stopped
deriving DecidableEq, Repr

/-- `mpris::Event` (aliased `MprisEvent` in main.rs). The code inspects only
the variant (`matches!(event, PlayerShutDown | Stopped | Paused)`), so the
payloads some variants carry in the crate are dropped here. -/
inductive MprisEvent
  | PlayerShutDown
  | Paused
  | Playing
  | Stopped
  | LoopingChanged
  | ShuffleToggled
  | VolumeChanged
  | PlaybackRateChanged
  | TrackChanged
  | Seeked
deriving DecidableEq, Repr

/-- `dbus::Error`, the payload of `mpris::DBusError::TransportError`. The code
uses only its `message()` accessor, which returns `Option<&str>`. -/
structure DbusLibError where
  message : Option String
deriving DecidableEq, Repr

/-- `mpris::DBusError`. The code inspects only the `TransportError` variant and
its `dbus::Error` payload's `message()`; the crate's remaining variants carry
only descriptive strings and expose no D-Bus message accessor, so they are
collapsed into one constructor here. -/
inductive DBusError
  | TransportError (err : DbusLibError)
  | Other (description : String)
deriving DecidableEq, Repr

/-- `mpris::FindingError`, the error type of `PlayerFinder::find_all`. -/
inductive FindingError
  | NoPlayerFound
  | DBusError (err : DBusError)
deriving DecidableEq, Repr

deriving instance DecidableEq for Except

/-- `mpris::Player`, as observed by one discovery cycle: its identity string
and the result its `get_playback_status()` query returns in that cycle. -/
structure Player where
  identity : String
  playbackStatus : Except DBusError PlaybackStatus
deriving DecidableEq, Repr

/-- main.rs line 29: error message returned by the playerctld daemon when
there is no active player. -/
def PLAYERCTLD_NO_ACTIVE_PLAYER_MESSAGE : String :=
  "No player is being controlled by playerctld"

/-- The closure at main.rs lines 116-123: a player counts as playing iff its
status query returns `Ok(PlaybackStatus::Playing)`; a query error is treated
as not playing (the log line is not modelled). -/
def player_is_playing (p : Player) : Bool :=
  match p.playbackStatus with
  | .ok .Playing => true
  | .ok _ => false
  | .error _ => false

/-- `find_active_player` (main.rs lines 114-133), as a function of the result
of `player_finder.find_all()`. Returns the first player found to be playing;
a `TransportError` whose D-Bus message equals the playerctld sentinel is
normalized to `Ok(None)`; every other error propagates (`other => other`). -/
def find_active_player (findAllResult : Except FindingError (List Player)) :
    Except FindingError (Option Player) :=
  let res := findAllResult.map (fun players => players.find? player_is_playing)
  match res with
  | .error (FindingError.DBusError (DBusError.TransportError err)) =>
      if err.message = some PLAYERCTLD_NO_ACTIVE_PLAYER_MESSAGE then .ok none
      else .error (FindingError.DBusError (DBusError.TransportError err))
  | other => other

/-- main.rs lines 77-80: whether an event implies playback ended
(`matches!(event, PlayerShutDown | Stopped | Paused)`). -/
def endsPlayback : MprisEvent → Bool
  | .PlayerShutDown => true
  | .Stopped => true
  | .Paused => true
  | _ => false

/-- The predicate of the `find` at main.rs line 85:
`matches!(res, Ok(true) | Err(_))`. -/
def watchHit : Except DBusError Bool → Bool
  | .ok true => true
  | .ok false => false
  | .error _ => true

/-- main.rs lines 74-85: the event iterator mapped through `endsPlayback`
(line 75-82) and searched for the first `Ok(true)` or `Err(_)` item.
`events` is the finite list of items the iterator yields; `none` means the
stream ended without such an item. -/
def watchFirstHit (events : List (Except DBusError MprisEvent)) :
    Option (Except DBusError Bool) :=
  (events.map (fun e => e.map endsPlayback)).find? watchHit

/-- `should_allow_idle` (main.rs lines 84-93): the first hit, with
end-of-stream defaulted to `Ok(true)` (lines 86-89) and a read error
defaulted to `true` (lines 90-93). -/
def should_allow_idle (events : List (Except DBusError MprisEvent)) : Bool :=
  match watchFirstHit events with
  | none => true
  | some (.ok b) => b
  | some (.error _) => true

/-- main.rs lines 22-25: the fixed sleep between discovery cycles, in seconds
(`Duration::from_secs(5)`). -/
def PLAYER_POLL_SLEEP_DURATION : Nat := 5

/-- The observable actions one iteration of the coordination loop can perform,
in the order the code performs them: construct a `PlayerFinder` (line 43),
issue the inhibitor create request (line 53), a synchronous roundtrip
(lines 62, 102), issue the inhibitor destroy request (line 100), and the
fixed-interval sleep (line 106). -/
inductive LoopAction
  | newPlayerFinder
  | createInhibitor
  | roundtrip
  | destroyInhibitor
  | sleep
deriving DecidableEq, Repr

/-- The `State` struct (main.rs lines 135-140). The bound protocol objects are
opaque to the program; only their presence matters, so each is `Option Unit`. -/
structure State where
  compositor : Option Unit := none
  surf : Option Unit := none
  idle_inhibit_manager : Option Unit := none
deriving DecidableEq, Repr

/-- `WL_COMPOSITOR_INTERFACE.name`. -/
def WL_COMPOSITOR_INTERFACE_NAME : String := "wl_compositor"

/-- `ZWP_IDLE_INHIBIT_MANAGER_V1_INTERFACE.name`. -/
def ZWP_IDLE_INHIBIT_MANAGER_V1_INTERFACE_NAME : String :=
  "zwp_idle_inhibit_manager_v1"

/-- A `wl_registry::Event::Global` announcement. -/
structure RegistryGlobal where
  name : Nat
  interface : String
  version : Nat
deriving DecidableEq, Repr

/-- The `Dispatch<WlRegistry, ()>` handler (main.rs lines 142-179) for one
`Global` event: a `wl_compositor` announcement binds the compositor and
immediately creates the anchor surface; a `zwp_idle_inhibit_manager_v1`
announcement binds the idle-inhibit manager; everything else is ignored.
Binding is modelled as succeeding (a rejected bind would panic via `unwrap`;
no claim concerns it). -/
def State.handleRegistryEvent (s : State) (g : RegistryGlobal) : State :=
  if g.interface = WL_COMPOSITOR_INTERFACE_NAME then
    { s with surf := some (), compositor := some () }
  else if g.interface = ZWP_IDLE_INHIBIT_MANAGER_V1_INTERFACE_NAME then
    { s with idle_inhibit_manager := some () }
  else s

/-- main.rs lines 39-40: `State::default()` followed by
`event_queue.blocking_dispatch(&mut state)`, delivering each advertised
global of the initial registry round to the handler in order. main performs
no check of the bound capabilities afterwards. -/
def startupDispatch (globals : List RegistryGlobal) : State :=
  globals.foldl State.handleRegistryEvent {}

/-- The inhibitor update in the active-player branch (main.rs lines 48-65):
`idle_inhibitor.or_else(|| { ... create_inhibitor ... roundtrip ... })`.
If an inhibitor is present it is returned unchanged and no request is issued;
otherwise the manager and the surface are unwrapped (`expect`, fatal when
absent), the create request is issued and a roundtrip performed. Rejection of
the create or the roundtrip by the compositor (which would panic) is not
modelled. -/
def ensure_inhibiting (s : State) (inhibitor : Option Unit) :
    Except String (List LoopAction × Option Unit) :=
  match inhibitor with
  | some i => .ok ([], some i)
  | none =>
    match s.idle_inhibit_manager with
    | none => .error "idle manager should be present"
    | some _ =>
      match s.surf with
      | none => .error "wayland surface should be present"
      | some _ => .ok ([LoopAction.createInhibitor, LoopAction.roundtrip], some ())

/-- `n` successive `ensure_inhibiting` calls with no intervening `ensure_idle`,
threading the inhibitor reference and accumulating the issued requests. -/
def ensure_inhibiting_times (s : State) (inhibitor : Option Unit) :
    Nat → Except String (List LoopAction × Option Unit)
  | 0 => .ok ([], inhibitor)
  | n + 1 =>
    match ensure_inhibiting s inhibitor with
    | .error e => .error e
    | .ok (tr, inh) =>
      match ensure_inhibiting_times s inh n with
      | .error e => .error e
      | .ok (tr2, inh2) => .ok (tr ++ tr2, inh2)

/-- The no-player branch (main.rs lines 99-105): if an inhibitor is present,
issue the destroy request, clear the reference and roundtrip; otherwise do
nothing. -/
def ensure_idle (inhibitor : Option Unit) : List LoopAction × Option Unit :=
  match inhibitor with
  | some _ => ([LoopAction.destroyInhibitor, LoopAction.roundtrip], none)
  | none => ([], none)

/-- The external world as observed by one iteration of the coordination loop:
whether `PlayerFinder::new()` succeeds (line 43), what `find_all()` returns
inside `find_active_player` (line 115), and what `active_player.events()`
returns if the watch runs (lines 70-72): either a failure (which panics) or
the finite list of items the event iterator yields. -/
structure CycleInput where
  finderOk : Bool
  findAll : Except FindingError (List Player)
  events : Except DBusError (List (Except DBusError MprisEvent))
deriving DecidableEq

/-- One iteration of the coordination loop (main.rs lines 42-107). Returns the
actions performed, in order, and either the inhibitor reference carried into
the next iteration or the message of the fatal panic. The inner watch loop
(lines 69-98) repeats while `should_allow_idle` is false; by
`should_allow_idle_true` that never happens, so exactly one pass executes and
the `else` branch below is unreachable. -/
def loopCycle (s : State) (inhibitor : Option Unit) (inp : CycleInput) :
    List LoopAction × Except String (Option Unit) :=
  if inp.finderOk then
    match find_active_player inp.findAll with
    | .error _ =>
      ([LoopAction.newPlayerFinder], .error "error while finding active players")
    | .ok (some _activePlayer) =>
      match ensure_inhibiting s inhibitor with
      | .error e => ([LoopAction.newPlayerFinder], .error e)
      | .ok (tr, inh) =>
        match inp.events with
        | .error _ =>
          (LoopAction.newPlayerFinder :: tr, .error "couldn't watch for player events")
        | .ok evs =>
          if should_allow_idle evs then
            (LoopAction.newPlayerFinder :: tr ++ [LoopAction.sleep], .ok inh)
          else
            (LoopAction.newPlayerFinder :: tr, .error "watch loop repeats")
    | .ok none =>
      match ensure_idle inhibitor with
      | (tr, inh) => (LoopAction.newPlayerFinder :: tr ++ [LoopAction.sleep], .ok inh)
  else ([LoopAction.newPlayerFinder], .error "could not connect to DBus")

/-- A run of successive coordination-loop iterations, stopping at the first
fatal error. The Wayland `State` is fixed: main never modifies it after the
startup dispatch. -/
def runCycles (s : State) :
    Option Unit → List CycleInput → List LoopAction × Except String (Option Unit)
  | inhibitor, [] => ([], .ok inhibitor)
  | inhibitor, inp :: rest =>
    match loopCycle s inhibitor inp with
    | (tr, .error e) => (tr, .error e)
    | (tr, .ok inh) =>
      match runCycles s inh rest with
      | (tr2, res) => (tr ++ tr2, res)

/-- The number of live inhibitor objects an inhibitor reference stands for. -/
def optCount : Option Unit → Nat
  | none => 0
  | some _ => 1

/-! Concrete fixtures used by witnesses and counterexamples. -/

/-- A registry round advertising both required capabilities. -/
def exGlobals : List RegistryGlobal :=
  [⟨1, WL_COMPOSITOR_INTERFACE_NAME, 5⟩,
   ⟨2, ZWP_IDLE_INHIBIT_MANAGER_V1_INTERFACE_NAME, 1⟩]

/-- The state after a startup round that advertised both capabilities. -/
def exBoundState : State := startupDispatch exGlobals

def playerA : Player := ⟨"A", .ok .Paused⟩

def playerB : Player := ⟨"B", .ok .Playing⟩

def playerC : Player := ⟨"C", .ok .Playing⟩

/-- A cycle whose discovery finds the playing player B and whose watcher then
sees a non-qualifying event followed by a Stopped event. -/
def exActiveInput : CycleInput :=
  { finderOk := true
    findAll := .ok [playerA, playerB, playerC]
    events := .ok [.ok .Playing, .ok .Stopped] }

/-- A cycle whose discovery finds no players at all. -/
def exIdleInput : CycleInput :=
  { finderOk := true
    findAll := .ok []
    events := .ok [] }

/-- A cycle in which `PlayerFinder::new()` fails. -/
def exFinderFailInput : CycleInput :=
  { finderOk := false
    findAll := .ok []
    events := .ok [] }

theorem should_allow_idle_true (events : List (Except DBusError MprisEvent)) :
    should_allow_idle events = true := by
  unfold should_allow_idle
  cases h : watchFirstHit events with
  | none => rfl
  | some r =>
    have hr : watchHit r = true := List.find?_some h
    cases r with
    | ok b => cases b with
      | false => simp [watchHit] at hr
      | true => rfl
    | error e => rfl

/-! ## Helper lemmas -/

theorem find_active_player_ok (players : List Player) :
    find_active_player (.ok players) = .ok (players.find? player_is_playing) :=
  rfl

theorem player_is_playing_of_error (p : Player) (e : DBusError)
    (h : p.playbackStatus = .error e) : player_is_playing p = false := by
  simp [player_is_playing, h]

theorem ensure_inhibiting_times_some (s : State) (i : Unit) :
    ∀ m, ensure_inhibiting_times s (some i) m = .ok ([], some i)
  | 0 => rfl
  | m + 1 => by
    simp [ensure_inhibiting_times, ensure_inhibiting,
      ensure_inhibiting_times_some s i m]

/-! ## Claim theorems -/

/-- Claim C3: an enumeration failure is normalized to `Ok(None)` — the same
result as an empty player list — exactly when it is a transport error whose
D-Bus message equals the playerctld "no controlled player" sentinel; every
other enumeration failure is propagated unchanged as an error. -/
theorem sentinel_normalization (e : FindingError) :
    (find_active_player (.error e) =
      if e = .DBusError (.TransportError
          ⟨some PLAYERCTLD_NO_ACTIVE_PLAYER_MESSAGE⟩)
      then .ok none else .error e) ∧
    find_active_player (.ok []) = .ok none := by
  refine ⟨?_, rfl⟩
  cases e with
  | NoPlayerFound => simp [find_active_player, Except.map]
  | DBusError d =>
    cases d with
    | TransportError err =>
      obtain ⟨msg⟩ := err
      by_cases h : msg = some PLAYERCTLD_NO_ACTIVE_PLAYER_MESSAGE <;>
        simp [find_active_player, Except.map, h]
    | Other s => simp [find_active_player, Except.map]

/-- Claim C7: discovery returns the first player in enumeration order whose
queried status is Playing: whenever every player before `p` in the enumeration
is not playing and `p` is playing, `find_active_player` returns `p`, with no
further tie-break among later playing players. -/
theorem find_first_playing (pre : List Player) (p : Player) (post : List Player)
    (hpre : ∀ q ∈ pre, player_is_playing q = false)
    (hp : player_is_playing p = true) :
    find_active_player (.ok (pre ++ p :: post)) = .ok (some p) := by
  rw [find_active_player_ok]
  induction pre with
  | nil => simp [List.find?_cons_of_pos, hp]
  | cons q rest ih =>
    have hq : player_is_playing q = false := hpre q (by simp)
    rw [List.cons_append, List.find?_cons_of_neg _ (by simp [hq])]
    exact ih (fun r hr => hpre r (by simp [hr]))

/-- Claim C7 witness: for the enumeration `[A:Paused, B:Playing, C:Playing]`
discovery returns B. -/
theorem find_first_playing_witness :
    (∀ q ∈ [playerA], player_is_playing q = false) ∧
    player_is_playing playerB = true ∧
    find_active_player (.ok ([playerA] ++ playerB :: [playerC])) =
      .ok (some playerB) :=
  ⟨by decide, by decide,
    find_first_playing [playerA] playerB [playerC] (by decide) (by decide)⟩

/-- Claim C8: a player whose individual status query fails is treated as
not playing and discovery continues past it: discovery on `a :: rest` with
`a`'s query failing equals discovery on `rest`; in particular with `a`
failing and `b` playing, discovery on `a :: b :: rest` returns `b`. -/
theorem find_query_error_skipped (a b : Player) (e : DBusError)
    (rest : List Player) (ha : a.playbackStatus = .error e)
    (hb : player_is_playing b = true) :
    find_active_player (.ok (a :: rest)) = find_active_player (.ok rest) ∧
    find_active_player (.ok (a :: b :: rest)) = .ok (some b) := by
  have haf : player_is_playing a = false := player_is_playing_of_error a e ha
  constructor
  · rw [find_active_player_ok, find_active_player_ok,
      List.find?_cons_of_neg _ (by simp [haf])]
  · rw [find_active_player_ok, List.find?_cons_of_neg _ (by simp [haf]),
      List.find?_cons_of_pos _ hb]

/-- Claim C8 witness: A's status query errors, B is playing, discovery still
returns B. -/
theorem find_query_error_skipped_witness :
    (⟨"A", .error (.Other "query failed")⟩ : Player).playbackStatus =
      .error (.Other "query failed") ∧
    player_is_playing playerB = true ∧
    (find_active_player (.ok [⟨"A", .error (.Other "query failed")⟩]) =
       find_active_player (.ok []) ∧
     find_active_player (.ok [⟨"A", .error (.Other "query failed")⟩, playerB]) =
       .ok (some playerB)) :=
  ⟨rfl, by decide,
    find_query_error_skipped ⟨"A", .error (.Other "query failed")⟩ playerB
      (.Other "query failed") [] rfl (by decide)⟩

/-- Claim C6: the watch always resolves allow-idle: for every finite event
stream — one yielding a read error, one ending without a qualifying event,
or one containing a qualifying event — `should_allow_idle` is true (and never
anything else), and a non-qualifying event at the head of the stream is
consumed without resolving the watch: the search continues on the rest of the
stream. -/
theorem watch_fail_open (events : List (Except DBusError MprisEvent))
    (ev : MprisEvent) (hev : endsPlayback ev = false) :
    should_allow_idle events = true ∧
    watchFirstHit (.ok ev :: events) = watchFirstHit events := by
  refine ⟨should_allow_idle_true events, ?_⟩
  simp [watchFirstHit, Except.map, List.find?_cons_of_neg, watchHit, hev]

/-- Claim C6 witness: `Playing` is non-qualifying and is skipped; the stream
ending in a read error resolves allow-idle. -/
theorem watch_fail_open_witness :
    endsPlayback MprisEvent.Playing = false ∧
    (should_allow_idle [.error (.Other "read failed")] = true ∧
     watchFirstHit (.ok MprisEvent.Playing :: [.error (.Other "read failed")]) =
       watchFirstHit [.error (.Other "read failed")]) :=
  ⟨by decide,
    watch_fail_open [.error (.Other "read failed")] MprisEvent.Playing
      (by decide)⟩

/-- Claim C4: `ensure_inhibiting` is idempotent: a present inhibitor is
returned unchanged with no create request and no roundtrip; and any positive
number of successive calls with no intervening `ensure_idle`, starting with no
inhibitor in a session with both capabilities bound, issues exactly one create
request and one roundtrip in total. -/
theorem ensure_inhibiting_idempotent (s : State) (i : Unit) (n : Nat)
    (hmgr : s.idle_inhibit_manager = some ()) (hsurf : s.surf = some ())
    (hn : 1 ≤ n) :
    ensure_inhibiting s (some i) = .ok ([], some i) ∧
    ensure_inhibiting_times s none n =
      .ok ([LoopAction.createInhibitor, LoopAction.roundtrip], some ()) := by
  refine ⟨rfl, ?_⟩
  obtain ⟨m, rfl⟩ : ∃ m, n = m + 1 :=
    ⟨n - 1, (Nat.succ_pred_eq_of_pos hn).symm⟩
  simp [ensure_inhibiting_times, ensure_inhibiting, hmgr, hsurf,
    ensure_inhibiting_times_some s () m]

/-- Claim C4 witness: three successive calls on a bound session issue exactly
one create request and one roundtrip. -/
theorem ensure_inhibiting_idempotent_witness :
    exBoundState.idle_inhibit_manager = some () ∧
    exBoundState.surf = some () ∧
    1 ≤ 3 ∧
    (ensure_inhibiting exBoundState (some ()) = .ok ([], some ()) ∧
     ensure_inhibiting_times exBoundState none 3 =
       .ok ([LoopAction.createInhibitor, LoopAction.roundtrip], some ())) :=
  ⟨by decide, by decide, by decide,
    ensure_inhibiting_idempotent exBoundState () 3 (by decide) (by decide)
      (by decide)⟩

theorem trace_getLast (a b : LoopAction) (l : List LoopAction) :
    (a :: l ++ [b]).getLast? = some b := by
  exact List.getLast?_concat _

theorem loopCycle_finder_fail (s : State) (inhibitor : Option Unit)
    (inp : CycleInput) (h : inp.finderOk = false) :
    loopCycle s inhibitor inp =
      ([LoopAction.newPlayerFinder], .error "could not connect to DBus") := by
  simp [loopCycle, h]

theorem loopCycle_head (s : State) (inhibitor : Option Unit)
    (inp : CycleInput) :
    (loopCycle s inhibitor inp).1.head? = some LoopAction.newPlayerFinder := by
  unfold loopCycle
  repeat' split
  all_goals rfl

theorem runCycles_append (s : State) (inps₁ inps₂ : List CycleInput) :
    ∀ inhibitor : Option Unit,
      runCycles s inhibitor (inps₁ ++ inps₂) =
        match runCycles s inhibitor inps₁ with
        | (tr, .error e) => (tr, .error e)
        | (tr, .ok inh) =>
          match runCycles s inh inps₂ with
          | (tr2, res) => (tr ++ tr2, res) := by
  induction inps₁ with
  | nil =>
    intro inhibitor
    cases h : runCycles s inhibitor inps₂ with
    | mk tr2 res => simp [runCycles, h]
  | cons inp rest ih =>
    intro inhibitor
    rw [List.cons_append]
    cases hc : loopCycle s inhibitor inp with
    | mk tr res =>
      cases res with
      | error e => simp [runCycles, hc]
      | ok inh =>
        cases hr : runCycles s inh rest with
        | mk tr2 res2 =>
          cases res2 with
          | error e => simp [runCycles, hc, hr, ih]
          | ok inh2 =>
            cases hr2 : runCycles s inh2 inps₂ with
            | mk tr3 res3 =>
              simp [runCycles, hc, hr, hr2, ih, List.append_assoc]

/-- Claim C9: `ensure_idle` with no inhibitor is a no-op, and a loop cycle in
which the finder connects, discovery finds no player, and no inhibitor exists
issues no destroy request and no roundtrip: its only actions are constructing
the finder and sleeping. -/
theorem ensure_idle_noop (s : State) (inp : CycleInput)
    (hfinder : inp.finderOk = true)
    (hfind : find_active_player inp.findAll = .ok none) :
    ensure_idle none = ([], none) ∧
    (loopCycle s none inp).1 =
      [LoopAction.newPlayerFinder, LoopAction.sleep] ∧
    LoopAction.destroyInhibitor ∉ (loopCycle s none inp).1 ∧
    LoopAction.roundtrip ∉ (loopCycle s none inp).1 := by
  have htr : (loopCycle s none inp).1 =
      [LoopAction.newPlayerFinder, LoopAction.sleep] := by
    simp [loopCycle, hfinder, hfind, ensure_idle]
  refine ⟨rfl, htr, ?_, ?_⟩ <;> rw [htr] <;> decide

/-- Claim C9 witness: an idle cycle with no inhibitor performs only the finder
construction and the sleep. -/
theorem ensure_idle_noop_witness :
    exIdleInput.finderOk = true ∧
    find_active_player exIdleInput.findAll = .ok none ∧
    (ensure_idle none = ([], none) ∧
     (loopCycle exBoundState none exIdleInput).1 =
       [LoopAction.newPlayerFinder, LoopAction.sleep] ∧
     LoopAction.destroyInhibitor ∉ (loopCycle exBoundState none exIdleInput).1 ∧
     LoopAction.roundtrip ∉ (loopCycle exBoundState none exIdleInput).1) :=
  ⟨rfl, by decide, ensure_idle_noop exBoundState exIdleInput rfl (by decide)⟩

/-- Claim C1 counterexample: a cycle in which discovery finds an active player
(player B), the inhibitor is created and the watcher returns allow-idle still
executes the fixed-interval sleep — the sleep is in the cycle's action list —
refuting "re-enters discovery immediately with no sleep" and "the sleep is
executed only in cycles where no active player was found". -/
theorem sleep_in_active_cycle_counterexample :
    find_active_player exActiveInput.findAll = .ok (some playerB) ∧
    (loopCycle exBoundState none exActiveInput).2 = .ok (some ()) ∧
    LoopAction.sleep ∈ (loopCycle exBoundState none exActiveInput).1 := by
  decide

/-- Claim C1 (amended): the sleep at main.rs line 106 sits after the
if/else, so it is unconditional: every iteration of the coordination loop
that completes without a fatal error ends with the fixed-interval sleep as
its last action, whether or not an active player was found — in particular
the loop sleeps after the event watcher returns allow-idle rather than
re-entering discovery immediately. -/
theorem sleep_every_completed_cycle (s : State) (inhibitor : Option Unit)
    (inp : CycleInput) (inh' : Option Unit)
    (h : (loopCycle s inhibitor inp).2 = .ok inh') :
    (loopCycle s inhibitor inp).1.getLast? = some LoopAction.sleep := by
  revert h
  unfold loopCycle
  repeat' split
  all_goals intro h
  all_goals first
    | exact trace_getLast _ _ _
    | simp_all [should_allow_idle_true]

/-- Claim C1 (amended) witness: the active cycle completes and its last action
is the sleep. -/
theorem sleep_every_completed_cycle_witness :
    (loopCycle exBoundState none exActiveInput).2 = .ok (some ()) ∧
    (loopCycle exBoundState none exActiveInput).1.getLast? =
      some LoopAction.sleep :=
  ⟨by decide,
    sleep_every_completed_cycle exBoundState none exActiveInput (some ())
      (by decide)⟩

/-- Claim C10: every iteration of the coordination loop constructs a fresh
`PlayerFinder` as its very first action, and a finder-construction failure is
fatal in any cycle: a failing cycle is exactly the fatal "could not connect to
DBus" error, and appending such a cycle to any previously successful run makes
the whole run fatal. -/
theorem fresh_finder_every_cycle (s : State) (inhibitor : Option Unit)
    (inp bad : CycleInput) (inps : List CycleInput) (inh' : Option Unit)
    (hbad : bad.finderOk = false)
    (hrun : (runCycles s inhibitor inps).2 = .ok inh') :
    (loopCycle s inhibitor inp).1.head? = some LoopAction.newPlayerFinder ∧
    loopCycle s inhibitor bad =
      ([LoopAction.newPlayerFinder], .error "could not connect to DBus") ∧
    (runCycles s inhibitor (inps ++ [bad])).2 =
      .error "could not connect to DBus" := by
  refine ⟨loopCycle_head s inhibitor inp,
    loopCycle_finder_fail s inhibitor bad hbad, ?_⟩
  rw [runCycles_append]
  cases hr : runCycles s inhibitor inps with
  | mk tr res =>
    rw [hr] at hrun
    simp only at hrun
    subst hrun
    simp [runCycles, loopCycle_finder_fail s inh' bad hbad]

/-- Claim C10 witness: after one successful idle cycle, a cycle whose finder
construction fails terminates the run with the fatal connection error. -/
theorem fresh_finder_every_cycle_witness :
    exFinderFailInput.finderOk = false ∧
    (runCycles exBoundState none [exIdleInput]).2 = .ok none ∧
    ((loopCycle exBoundState none exIdleInput).1.head? =
       some LoopAction.newPlayerFinder ∧
     loopCycle exBoundState none exFinderFailInput =
       ([LoopAction.newPlayerFinder], .error "could not connect to DBus") ∧
     (runCycles exBoundState none ([exIdleInput] ++ [exFinderFailInput])).2 =
       .error "could not connect to DBus") :=
  ⟨rfl, by decide,
    fresh_finder_every_cycle exBoundState none exIdleInput exFinderFailInput
      [exIdleInput] none rfl (by decide)⟩

theorem foldl_handle_skips :
    ∀ (globals : List RegistryGlobal) (s : State),
      (∀ g ∈ globals, g.interface ≠ WL_COMPOSITOR_INTERFACE_NAME ∧
        g.interface ≠ ZWP_IDLE_INHIBIT_MANAGER_V1_INTERFACE_NAME) →
      globals.foldl State.handleRegistryEvent s = s
  | [], _, _ => rfl
  | g :: rest, s, hg => by
    have h1 := (hg g (by simp)).1
    have h2 := (hg g (by simp)).2
    have hstep : State.handleRegistryEvent s g = s := by
      simp [State.handleRegistryEvent, h1, h2]
    rw [List.foldl_cons, hstep]
    exact foldl_handle_skips rest s (fun g' hg' => hg g' (by simp [hg']))

/-- Claim C2 counterexample: with no globals advertised, the startup registry
round leaves both the anchor surface and the idle-inhibit manager unbound, yet
startup does not fail: the coordination loop starts and a full idle cycle
completes without a fatal error — the loop does begin in a degraded mode. -/
theorem degraded_loop_start_counterexample :
    (startupDispatch []).surf = none ∧
    (startupDispatch []).idle_inhibit_manager = none ∧
    (loopCycle (startupDispatch []) none exIdleInput).2 = .ok none := by
  decide

/-- Claim C2 (amended): main performs no capability check after the startup
registry round. If neither required interface is among the advertised globals,
both capabilities stay unbound and the coordination loop nevertheless starts:
every cycle whose discovery finds no active player completes without a fatal
error regardless of what is bound. The process fails fatally only when a cycle
first finds an active player with no inhibitor present: the idle-manager
expect fires, or — with a manager but no surface — the surface expect fires.
(A capability that is advertised but whose bind is rejected still panics
during the registry round itself.) -/
theorem capability_check_deferred (globals : List RegistryGlobal)
    (s : State) (inp : CycleInput) (p : Player)
    (hg : ∀ g ∈ globals, g.interface ≠ WL_COMPOSITOR_INTERFACE_NAME ∧
      g.interface ≠ ZWP_IDLE_INHIBIT_MANAGER_V1_INTERFACE_NAME)
    (hfinder : inp.finderOk = true) :
    startupDispatch globals = {} ∧
    (find_active_player inp.findAll = .ok none →
      (loopCycle s none inp).2 = .ok none) ∧
    (find_active_player inp.findAll = .ok (some p) →
      (s.idle_inhibit_manager = none →
        (loopCycle s none inp).2 = .error "idle manager should be present") ∧
      (s.idle_inhibit_manager = some () → s.surf = none →
        (loopCycle s none inp).2 =
          .error "wayland surface should be present")) := by
  refine ⟨foldl_handle_skips globals {} hg, ?_, ?_⟩
  · intro hfind
    simp [loopCycle, hfinder, hfind, ensure_idle]
  · intro hfind
    constructor
    · intro hm
      simp [loopCycle, hfinder, hfind, ensure_inhibiting, hm]
    · intro hm hsurf
      simp [loopCycle, hfinder, hfind, ensure_inhibiting, hm, hsurf]

/-- Claim C2 (amended) witness: a startup round advertising only `wl_output`
binds nothing, and a cycle that then finds playing player B on the empty state
dies with the idle-manager expect. -/
theorem capability_check_deferred_witness :
    ((⟨3, "wl_output", 4⟩ : RegistryGlobal).interface ≠
       WL_COMPOSITOR_INTERFACE_NAME ∧
     (⟨3, "wl_output", 4⟩ : RegistryGlobal).interface ≠
       ZWP_IDLE_INHIBIT_MANAGER_V1_INTERFACE_NAME) ∧
    exActiveInput.finderOk = true ∧
    (startupDispatch [⟨3, "wl_output", 4⟩] = {} ∧
     (find_active_player exActiveInput.findAll = .ok none →
       (loopCycle {} none exActiveInput).2 = .ok none) ∧
     (find_active_player exActiveInput.findAll = .ok (some playerB) →
       (({} : State).idle_inhibit_manager = none →
         (loopCycle {} none exActiveInput).2 =
           .error "idle manager should be present") ∧
       (({} : State).idle_inhibit_manager = some () →
         ({} : State).surf = none →
         (loopCycle {} none exActiveInput).2 =
           .error "wayland surface should be present"))) :=
  ⟨by decide, rfl,
    capability_check_deferred [⟨3, "wl_output", 4⟩] {} exActiveInput playerB
      (by decide) rfl⟩

/-- Claim C5: the inhibitor lifecycle invariant for one iteration of the
coordination loop. At most one create and at most one destroy request is
issued; a create request is issued exactly when no inhibitor exists, the
finder connects, discovery finds a playing player and both capabilities are
bound (a missing capability panics before any request); a destroy request is
issued exactly when an inhibitor exists, the finder connects and discovery
finds no player — and the iteration then clears the reference (`Ok none`).
Across any completed iteration the inhibitor reference tracks the net number
of live inhibitor objects, so since it is an `Option` at most one inhibitor
exists in every reachable state, never double-created and never
double-destroyed. -/
theorem inhibitor_lifecycle_invariant (s : State) (inhibitor : Option Unit)
    (inp : CycleInput) :
    ((loopCycle s inhibitor inp).1.count LoopAction.createInhibitor ≤ 1 ∧
     (loopCycle s inhibitor inp).1.count LoopAction.destroyInhibitor ≤ 1) ∧
    (LoopAction.createInhibitor ∈ (loopCycle s inhibitor inp).1 ↔
      (inp.finderOk = true ∧ inhibitor = none ∧
       s.idle_inhibit_manager = some () ∧ s.surf = some () ∧
       ∃ p, find_active_player inp.findAll = .ok (some p))) ∧
    (LoopAction.destroyInhibitor ∈ (loopCycle s inhibitor inp).1 ↔
      (inp.finderOk = true ∧ inhibitor = some () ∧
       find_active_player inp.findAll = .ok none)) ∧
    (LoopAction.destroyInhibitor ∈ (loopCycle s inhibitor inp).1 →
      (loopCycle s inhibitor inp).2 = .ok none) ∧
    (∀ inh', (loopCycle s inhibitor inp).2 = .ok inh' →
      optCount inh' +
        (loopCycle s inhibitor inp).1.count LoopAction.destroyInhibitor =
      optCount inhibitor +
        (loopCycle s inhibitor inp).1.count LoopAction.createInhibitor) := by
  cases hf : inp.finderOk with
  | false => simp [loopCycle, hf]
  | true =>
    cases hfd : find_active_player inp.findAll with
    | error e => simp [loopCycle, hf, hfd]
    | ok po =>
      cases po with
      | none =>
        cases inhibitor with
        | none => simp [loopCycle, hf, hfd, ensure_idle, optCount]
        | some u =>
          cases u
          simp [loopCycle, hf, hfd, ensure_idle, optCount]
      | some p =>
        cases inhibitor with
        | some u =>
          cases u
          cases hev : inp.events with
          | error e =>
            simp [loopCycle, hf, hfd, ensure_inhibiting, hev, optCount]
          | ok evs =>
            simp [loopCycle, hf, hfd, ensure_inhibiting, hev,
              should_allow_idle_true, optCount]
        | none =>
          cases hm : s.idle_inhibit_manager with
          | none => simp [loopCycle, hf, hfd, ensure_inhibiting, hm]
          | some u =>
            cases u
            cases hs : s.surf with
            | none => simp [loopCycle, hf, hfd, ensure_inhibiting, hm, hs]
            | some u2 =>
              cases u2
              cases hev : inp.events with
              | error e =>
                simp [loopCycle, hf, hfd, ensure_inhibiting, hm, hs, hev,
                  optCount]
              | ok evs =>
                simp [loopCycle, hf, hfd, ensure_inhibiting, hm, hs, hev,
                  should_allow_idle_true, optCount]

/-- Claim C5 witness: the invariant instantiated at a bound session, no
existing inhibitor, and a cycle that finds playing player B. -/
theorem inhibitor_lifecycle_invariant_witness :
    (((loopCycle exBoundState none exActiveInput).1.count
        LoopAction.createInhibitor ≤ 1 ∧
      (loopCycle exBoundState none exActiveInput).1.count
        LoopAction.destroyInhibitor ≤ 1) ∧
     (LoopAction.createInhibitor ∈
        (loopCycle exBoundState none exActiveInput).1 ↔
       (exActiveInput.finderOk = true ∧ (none : Option Unit) = none ∧
        exBoundState.idle_inhibit_manager = some () ∧
        exBoundState.surf = some () ∧
        ∃ p, find_active_player exActiveInput.findAll = .ok (some p))) ∧
     (LoopAction.destroyInhibitor ∈
        (loopCycle exBoundState none exActiveInput).1 ↔
       (exActiveInput.finderOk = true ∧ (none : Option Unit) = some () ∧
        find_active_player exActiveInput.findAll = .ok none)) ∧
     (LoopAction.destroyInhibitor ∈
        (loopCycle exBoundState none exActiveInput).1 →
       (loopCycle exBoundState none exActiveInput).2 = .ok none) ∧
     (∀ inh', (loopCycle exBoundState none exActiveInput).2 = .ok inh' →
       optCount inh' +
         (loopCycle exBoundState none exActiveInput).1.count
           LoopAction.destroyInhibitor =
       optCount none +
         (loopCycle exBoundState none exActiveInput).1.count
           LoopAction.createInhibitor)) :=
  inhibitor_lifecycle_invariant exBoundState none exActiveInput
